import Mathlib

/-!
Verification development for the bkchem excerpt: the textatom vertex
(src/bkchem/textatom.py), the functional-group table
(src/bkchem/groups_table.py) and the PDF exporter plugin
(src/bkchem/plugins/pdf.py).

The Python code is shallowly embedded: the mutable textatom object becomes a
record, each property setter and method becomes a state-passing function,
canvas side effects become an explicit effect trace, and the DOM element
format becomes an inductive tree. Machine floats of the original are
modelled as rationals; Python byte strings appear either as abstract Lean
strings (where the properties treat them opaquely) or as lists of byte values
(for the codec fallback of the name setter, namespace PyStr).
-/

namespace BKChem

/-! ### The DOM element model (xml.dom.minidom fragments)

An element has a tag, an attribute list, child elements and an opaque
inline-markup payload. The payload field models the serialized childNodes
of a text-bearing element such as ftext: both dom.parseString on writing
(textatom.py line 499) and the childNodes toxml concatenation on reading
(line 466) are treated as the identity on that payload, i.e. the markup
text is carried opaquely. -/

inductive Element where
  | mk : String → List (String × String) → List Element → String → Element

def Element.tag : Element → String
  | .mk t _ _ _ => t

def Element.attrs : Element → List (String × String)
  | .mk _ a _ _ => a

def Element.children : Element → List Element
  | .mk _ _ c _ => c

def Element.inner : Element → String
  | .mk _ _ _ s => s

/-- Model of minidom getAttribute: the attribute value, or the empty string
when the attribute is absent. -/
def Element.getAttribute (el : Element) (key : String) : String :=
  (el.attrs.lookup key).getD ""

/-- Model of minidom getElementsByTagName over a list of nodes: all
descendant elements with the given tag, in document (preorder) order, the
listed nodes themselves included when they match. -/
def elemsByTag (tag : String) : List Element → List Element
  | [] => []
  | Element.mk t as cs s :: rest =>
      (if t = tag then [Element.mk t as cs s] else [])
        ++ elemsByTag tag cs ++ elemsByTag tag rest

/-- Model of minidom getElementsByTagName on an element: matching descendants
of the element (the element itself excluded). -/
def Element.getElementsByTagName (el : Element) (tag : String) : List Element :=
  elemsByTag tag el.children

/-! ### The paper and the Python runtime

The paper object (class chem_paper) is not part of this excerpt; textatom
calls into it for unit conversion, coordinate transforms and the standard
style values. It is modelled as a record of those functions and values.
The Python builtins str and int, used for the font size attribute on lines
473 and 495, are likewise external and appear as the str_of_int and
int_of_str fields (int raising ValueError on a malformed string becomes
int_of_str returning none). The two unit-scale methods of the paper,
real_to_screen_ratio and screen_to_real_ratio, appear here under the
names real_to_screen_scale and screen_to_real_scale. -/

structure Paper where
  any_to_px : ℚ → ℚ
  px_to_text_with_unit : ℚ → String
  read_unit : String → ℚ
  real_to_screen_coords : ℚ × ℚ → ℚ × ℚ
  screen_to_real_coords : ℚ × ℚ → ℚ × ℚ
  real_to_screen_scale : ℚ
  screen_to_real_scale : ℚ
  str_of_int : Int → String
  int_of_str : String → Option Int
  standard_font_size : Int
  standard_font_family : String
  standard_line_color : String
  standard_area_color : String

/-- Model of paper.read_xml_point on a point element: the x and y coordinate
values and, when a z attribute is present, the z value (None otherwise). -/
def Paper.read_xml_point (p : Paper) (el : Element) : ℚ × ℚ × Option ℚ :=
  (p.read_unit (el.getAttribute "x"),
   p.read_unit (el.getAttribute "y"),
   (el.attrs.lookup "z").map p.read_unit)

/-- Model of tkFont.Font as the pair of the attributes the code passes to it
(textatom.py line 534). -/
structure Font where
  family : String
  size : Int
deriving DecidableEq

/-! ### The textatom state

Fields follow textatom.__init__ (lines 71-101) and the properties
(lines 105-264). The private double-underscore attributes behind the
properties are the record fields; reading a property with no backing field
(charge, valency, drawn, show) is a plain function below. selected models
the _selected flag (an int 0/1 in the code), item, selector, focus_item and
ftext model the Tk canvas handles and the ftext helper object (a handle or
None). The molecule reference, group_graph and the undo machinery are not
modelled: none of the properties verified below involve them. -/

structure Textatom where
  x : ℚ
  y : ℚ
  z : ℚ
  name : String
  id : String
  pos : Option String
  text : String
  font_size : Int
  font_family : String
  line_color : String
  area_color : String
  font : Font
  item : Option Nat
  selector : Option Nat
  selected : Nat
  focus_item : Option Nat
  ftext : Option Nat
  dirty : Bool
deriving DecidableEq

/-- The x property setter (lines 121-122): the assigned value passes through
paper.any_to_px. -/
def set_x (p : Paper) (v : ℚ) (a : Textatom) : Textatom :=
  { a with x := p.any_to_px v }

/-- The y property setter (lines 131-132). -/
def set_y (p : Paper) (v : ℚ) (a : Textatom) : Textatom :=
  { a with y := p.any_to_px v }

/-- The z property setter (lines 141-142). -/
def set_z (v : ℚ) (a : Textatom) : Textatom :=
  { a with z := v }

/-- The name property setter (lines 151-157) at the level of abstract
strings: the stored text, with the dirty mark. The byte-level codec
fallback of the same setter is modelled separately in namespace PyStr. -/
def set_name (v : String) (a : Textatom) : Textatom :=
  { a with name := v, dirty := true }

/-- The pos property setter (lines 178-180). -/
def set_pos (v : Option String) (a : Textatom) : Textatom :=
  { a with pos := v, dirty := true }

/-- The font_size property setter (lines 213-215). -/
def set_font_size (v : Int) (a : Textatom) : Textatom :=
  { a with font_size := v, dirty := true }

/-- The charge property getter (lines 164-165): always 0. -/
def charge (_ : Textatom) : Int := 0

/-- The charge property setter (lines 167-168): pass. -/
def set_charge (_ : Int) (a : Textatom) : Textatom := a

/-- The valency property getter (lines 187-188): always 1. -/
def valency (_ : Textatom) : Int := 1

/-- The valency property setter (lines 190-191): pass. -/
def set_valency (_ : Int) (a : Textatom) : Textatom := a

/-- The drawn property (lines 234-238): 1 when the canvas item exists, else
0 (canvas handles are never the falsy id 0). -/
def drawn (a : Textatom) : Nat :=
  if a.item.isSome then 1 else 0

/-- update_font (lines 533-534): the cached font object is rebuilt from the
current family and size. -/
def update_font (a : Textatom) : Textatom :=
  { a with font := ⟨a.font_family, a.font_size⟩ }

/-- Python 2 round (half away from zero) followed by int truncation, as in
int(round(v)) on line 541. -/
def pyRound (q : ℚ) : Int :=
  if q < 0 then -(⌊-q + 1/2⌋) else ⌊q + 1/2⌋

/-- scale_font (lines 539-542): the size is scaled through the font_size
property setter, then the font is rebuilt. -/
def scale_font (r : ℚ) (a : Textatom) : Textatom :=
  update_font (set_font_size (pyRound ((a.font_size : ℚ) * r)) a)

/-- decide_pos (lines 298-309): neighbors to the left count -1, to the
right +1; a positive sum gives center-last, otherwise center-first. The
neighbor x coordinates are passed explicitly (the graph structure is not
modelled). Assignment goes through the pos property setter. -/
def decide_pos (neighbor_xs : List ℚ) (a : Textatom) : Textatom :=
  let p : Int := neighbor_xs.foldl
    (fun acc ax => if ax < a.x then acc - 1 else if ax > a.x then acc + 1 else acc) 0
  if p > 0 then set_pos (some "center-last") a else set_pos (some "center-first") a

/-- toggle_center (lines 516-528): mode 0 maps center-last to center-first
and anything else (center-first, None or a stray string) to center-last;
mode -1 forces center-first; any other mode forces center-last. The
trailing self.redraw() re-renders the canvas items and does not touch pos;
it is not modelled here. -/
def toggle_center (mode : Int) (a : Textatom) : Textatom :=
  if mode = 0 then
    if a.pos = some "center-last" then set_pos (some "center-first") a
    else set_pos (some "center-last") a
  else if mode = -1 then set_pos (some "center-first") a
  else set_pos (some "center-last") a

/-- move (lines 385-398): both coordinates are incremented through the x
and y property setters. When the atom is drawn the canvas item, selector
and ftext are moved as well; those are paper-side effects that do not
change the atom record and are not part of this state function. -/
def move (p : Paper) (dx dy : ℚ) (a : Textatom) : Textatom :=
  set_y p (a.y + dy) (set_x p (a.x + dx) a)

/-- move_to (lines 402-405): the deltas to the target are computed from the
current coordinates, then move is called. -/
def move_to (p : Paper) (tx ty : ℚ) (a : Textatom) : Textatom :=
  move p (tx - a.x) (ty - a.y) a

/-- get_xy (lines 411-412). -/
def get_xy (a : Textatom) : ℚ × ℚ :=
  (a.x, a.y)

/-- get_xyz with real=1 (lines 417-425): screen coordinates through
screen_to_real_coords, z scaled by screen_to_real_ratio. -/
def get_xyz_real (p : Paper) (a : Textatom) : ℚ × ℚ × ℚ :=
  let xy := p.screen_to_real_coords (a.x, a.y)
  (xy.1, xy.2, a.z * p.screen_to_real_scale)

/-! ### Serialization: get_package and read_package -/

/-- The font child element built on lines 495-497: size and family always,
color only when the line color differs from the standard. -/
def fontChildOf (p : Paper) (a : Textatom) : Element :=
  Element.mk "font"
    ([("size", p.str_of_int a.font_size), ("family", a.font_family)]
      ++ (if a.line_color ≠ p.standard_line_color then [("color", a.line_color)] else []))
    [] ""

/-- The ftext child element built on line 499: the inline markup text is the
atom name. -/
def ftextChildOf (a : Textatom) : Element :=
  Element.mk "ftext" [] [] a.name

/-- The point child element built on lines 504-508: real coordinates
rendered with their unit; z is included exactly when self.z is nonzero. -/
def pointChildOf (p : Paper) (a : Textatom) : Element :=
  let r := get_xyz_real p a
  let xs := p.px_to_text_with_unit r.1
  let ys := p.px_to_text_with_unit r.2.1
  let zs := p.px_to_text_with_unit r.2.2
  if a.z ≠ 0 then Element.mk "point" [("x", xs), ("y", ys), ("z", zs)] [] ""
  else Element.mk "point" [("x", xs), ("y", ys)] [] ""

/-- get_package (lines 483-510): a text element carrying the id attribute,
an optional font child (when size, family or line color differ from the
paper standard), the ftext child, an optional background-color attribute
(when the area color differs from the standard) and the point child. -/
def get_package (p : Paper) (a : Textatom) : Element :=
  let fontCs : List Element :=
    if a.font_size ≠ p.standard_font_size ∨ a.font_family ≠ p.standard_font_family
        ∨ a.line_color ≠ p.standard_line_color
    then [fontChildOf p a] else []
  let attrs : List (String × String) :=
    [("id", a.id)]
      ++ (if a.area_color ≠ p.standard_area_color then [("background-color", a.area_color)] else [])
  Element.mk "text" attrs (fontCs ++ [ftextChildOf a, pointChildOf p a]) ""

/-- The exceptional outcomes read_package can produce: the bare string
raised on line 468, the IndexError of indexing an empty getElementsByTagName
result on line 455, and the ValueError of int() on a malformed size
attribute on line 473. -/
inductive PyError where
  | stringRaise : String → PyError
  | indexError : PyError
  | valueError : PyError
deriving DecidableEq

/-- The font and fill color part of read_package (lines 470-476): when a
font element is present, its size attribute goes through int() (a
malformed size is the ValueError of int), its family is copied, and its
color attribute is copied under Python string truthiness (an empty color
attribute counts as absent). -/
def read_font_part (p : Paper) (pkg : Element) (a : Textatom) : Except PyError Textatom :=
  match pkg.getElementsByTagName "font" with
  | [] => Except.ok a
  | fnt :: _ =>
    match p.int_of_str (fnt.getAttribute "size") with
    | none => Except.error PyError.valueError
    | some n =>
      let a6 := set_font_size n a
      let a7 := { a6 with font_family := fnt.getAttribute "family" }
      Except.ok (if fnt.getAttribute "color" ≠ ""
        then { a7 with line_color := fnt.getAttribute "color" } else a7)

/-- The background color part of read_package (lines 478-479), again with
string truthiness. -/
def read_bg_part (pkg : Element) (a : Textatom) : Textatom :=
  if pkg.getAttribute "background-color" ≠ ""
  then { a with area_color := pkg.getAttribute "background-color" } else a

/-- The coordinate part of read_package (lines 455-463): the first point
descendant is read through paper.read_xml_point, z (when present) is
scaled by real_to_screen_ratio through the z setter, and x and y pass
through real_to_screen_coords and the x and y property setters. -/
def read_point_part (p : Paper) (position : Element) (a : Textatom) : Textatom :=
  let xyz := p.read_xml_point position
  let a3 := match xyz.2.2 with
    | some zv => set_z (zv * p.real_to_screen_scale) a
    | none => a
  let rxy := p.real_to_screen_coords (xyz.1, xyz.2.1)
  set_y p rxy.2 (set_x p rxy.1 a3)

/-- read_package (lines 449-480). The id and pos attributes are copied in
verbatim, the first point descendant gives the coordinates (an absent
point is the IndexError of [0] on an empty list), a missing ftext
descendant raises the bare string, then the font and background parts
run. A raised error discards the partially mutated object, which the
failing constructor call would never return. -/
def read_package (p : Paper) (a0 : Textatom) (pkg : Element) : Except PyError Textatom :=
  let a1 := { a0 with id := pkg.getAttribute "id" }
  let a2 := set_pos (some (pkg.getAttribute "pos")) a1
  match pkg.getElementsByTagName "point" with
  | [] => Except.error PyError.indexError
  | position :: _ =>
    let a4 := read_point_part p position a2
    match pkg.getElementsByTagName "ftext" with
    | [] => Except.error (PyError.stringRaise "not text atom")
    | ft :: _ =>
      (read_font_part p pkg (set_name ft.inner a4)).map (read_bg_part pkg)

/-- The state __init__ (lines 71-101) builds before read_package runs: the
standard style values are read from the paper, z is 0, the handles are
None, pos is None and the name is empty. The x and y fields carry a
placeholder 0: with a package and no xy argument the Python object has no
x or y attribute until read_package assigns both. The font field likewise
carries a placeholder until the update_font call at the end of __init__. -/
def initial_atom (p : Paper) : Textatom :=
  { x := 0, y := 0, z := 0, name := "", id := "", pos := none, text := ""
    font_size := p.standard_font_size, font_family := p.standard_font_family
    line_color := p.standard_line_color, area_color := p.standard_area_color
    font := ⟨"", 0⟩, item := none, selector := none, selected := 0
    focus_item := none, ftext := none, dirty := true }

/-- Constructing a textatom from a document element: __init__ with a package
runs read_package on the fresh state and then update_font. -/
def init_from_package (p : Paper) (pkg : Element) : Except PyError Textatom :=
  (read_package p (initial_atom p) pkg).map update_font

/-! ### delete and its canvas effect trace -/

/-- One canvas-side operation performed by delete (lines 431-445): an
itemconfig from unfocus or unselect, a canvas delete, an id unregistration,
or a delete call on the ftext helper object. -/
inductive Effect where
  | itemconfig_fill : Option Nat → String → Effect
  | itemconfig_outline : Option Nat → String → Effect
  | canvas_delete : Nat → Effect
  | unregister_id : Nat → Effect
  | ftext_delete : Nat → Effect
deriving DecidableEq

/-- delete (lines 431-445): unfocus when a focus item exists, then unselect
and remove the selector, then unregister and remove the item, then delete
the ftext helper. The function returns the new state and the trace of
canvas operations; the code returns self. Note that neither focus_item nor
ftext is cleared. -/
def delete (a : Textatom) : Textatom × List Effect :=
  let ef1 : List Effect :=
    if a.focus_item.isSome then [Effect.itemconfig_fill a.selector a.area_color] else []
  let step2 : Textatom × List Effect :=
    match a.selector with
    | some s =>
      ({ a with selector := none, selected := 0 },
        [Effect.itemconfig_outline (some s) "", Effect.canvas_delete s])
    | none => (a, [])
  let a2 := step2.1
  let step3 : Textatom × List Effect :=
    match a2.item with
    | some i => ({ a2 with item := none }, [Effect.unregister_id i, Effect.canvas_delete i])
    | none => (a2, [])
  let a3 := step3.1
  let ef4 : List Effect :=
    match a3.ftext with
    | some f => [Effect.ftext_delete f]
    | none => []
  (a3, ef1 ++ step2.2 ++ step3.2 ++ ef4)

/-! ### The name setter at byte level (namespace PyStr)

The name property setter (textatom.py lines 151-157) receives a Python 2
byte string, tries the implicit ascii decode of unicode(name), falls back
to name.decode with utf-8 on a UnicodeDecodeError, and stores the utf-8
encoding of the decoded text. Byte strings are lists of byte values,
unicode strings lists of code points. The utf-8 decoder below models the
Python 2 codec: ascii bytes pass through, multi-byte sequences need
continuation bytes in 80..BF, overlong encodings are rejected (hence the
C2..DF, E0/A0 and F0/90 lower bounds); like the Python 2 codec it is
lenient about surrogate code points. -/

namespace PyStr

/-- The implicit ascii decode performed by unicode() on a byte string:
succeeds exactly when every byte is below 128. -/
def asciiDecode (bs : List Nat) : Option (List Nat) :=
  if bs.all (fun b => b < 128) then some bs else none

/-- A utf-8 continuation byte. -/
def isCont (c : Nat) : Bool :=
  0x80 ≤ c && c ≤ 0xBF

/-- The utf-8 decode of a byte string into code points, none on a malformed
sequence (modelling the UnicodeDecodeError of str.decode). -/
def utf8Decode : List Nat → Option (List Nat)
  | [] => some []
  | b :: rest =>
    if b ≤ 0x7F then (utf8Decode rest).map (fun cs => b :: cs)
    else if 0xC2 ≤ b && b ≤ 0xDF then
      match rest with
      | c :: rest2 =>
        if isCont c then
          (utf8Decode rest2).map (fun cs => ((b - 0xC0) * 0x40 + (c - 0x80)) :: cs)
        else none
      | [] => none
    else if 0xE0 ≤ b && b ≤ 0xEF then
      match rest with
      | c :: d :: rest3 =>
        if isCont c && isCont d && (b != 0xE0 || 0xA0 ≤ c) then
          (utf8Decode rest3).map
            (fun cs => ((b - 0xE0) * 0x1000 + (c - 0x80) * 0x40 + (d - 0x80)) :: cs)
        else none
      | _ => none
    else if 0xF0 ≤ b && b ≤ 0xF4 then
      match rest with
      | c :: d :: e :: rest4 =>
        if isCont c && isCont d && isCont e && (b != 0xF0 || 0x90 ≤ c) then
          (utf8Decode rest4).map
            (fun cs => ((b - 0xF0) * 0x40000 + (c - 0x80) * 0x1000
              + (d - 0x80) * 0x40 + (e - 0x80)) :: cs)
        else none
      | _ => none
    else none

/-- The utf-8 encoding of one code point. -/
def utf8Encode1 (c : Nat) : List Nat :=
  if c ≤ 0x7F then [c]
  else if c ≤ 0x7FF then [0xC0 + c / 0x40, 0x80 + c % 0x40]
  else if c ≤ 0xFFFF then [0xE0 + c / 0x1000, 0x80 + c / 0x40 % 0x40, 0x80 + c % 0x40]
  else [0xF0 + c / 0x40000, 0x80 + c / 0x1000 % 0x40, 0x80 + c / 0x40 % 0x40, 0x80 + c % 0x40]

/-- The utf-8 encoding of a unicode string, as t.encode on line 156. -/
def utf8Encode (cs : List Nat) : List Nat :=
  cs.foldr (fun c acc => utf8Encode1 c ++ acc) []

/-- The name setter body (lines 151-157) on a byte string: the stored byte
string, or none when both decodes fail and the UnicodeDecodeError of the
fallback propagates. -/
def storedName (bs : List Nat) : Option (List Nat) :=
  match asciiDecode bs with
  | some t => some (utf8Encode t)
  | none => (utf8Decode bs).map utf8Encode

end PyStr

/-! ### The PDF exporter plugin (src/bkchem/plugins/pdf.py) -/

namespace PdfPlugin

/-- Model of piddlePDF.PDFCanvas: the external constructor records the page
size it was called with (None when omitted). -/
structure PDFCanvas where
  pagesize : Option (ℚ × ℚ)
deriving DecidableEq

/-- pdf_exporter.init_canvas (pdf.py lines 28-29): a PDFCanvas constructed
with the given page size. -/
def init_canvas (pagesize : Option (ℚ × ℚ)) : PDFCanvas :=
  PDFCanvas.mk pagesize

/-- The plugin interface name (pdf.py line 34). -/
def plugin_name : String := "PDF"

/-- The declared file extensions (pdf.py line 35). -/
def plugin_extensions : List String := [".pdf"]

end PdfPlugin

/-! ### Helper lemmas on the DOM search -/

theorem elemsByTag_nil (tag : String) : elemsByTag tag [] = [] := by
  simp [elemsByTag]

theorem elemsByTag_append (tag : String) (l1 l2 : List Element) :
    elemsByTag tag (l1 ++ l2) = elemsByTag tag l1 ++ elemsByTag tag l2 := by
  induction l1 with
  | nil => simp [elemsByTag]
  | cons h t ih =>
    cases h with
    | mk a b c d => simp [elemsByTag, ih]

theorem elemsByTag_flat (tag : String) (el : Element) (h : el.children = []) :
    elemsByTag tag [el] = if el.tag = tag then [el] else [] := by
  cases el with
  | mk t as cs s =>
    simp only [Element.children] at h
    subst h
    simp [elemsByTag, Element.tag]

theorem fontChildOf_children (p : Paper) (a : Textatom) :
    (fontChildOf p a).children = [] := rfl

theorem fontChildOf_tag (p : Paper) (a : Textatom) :
    (fontChildOf p a).tag = "font" := rfl

theorem ftextChildOf_children (a : Textatom) :
    (ftextChildOf a).children = [] := rfl

theorem ftextChildOf_tag (a : Textatom) :
    (ftextChildOf a).tag = "ftext" := rfl

theorem pointChildOf_children (p : Paper) (a : Textatom) :
    (pointChildOf p a).children = [] := by
  unfold pointChildOf
  split <;> rfl

theorem pointChildOf_tag (p : Paper) (a : Textatom) :
    (pointChildOf p a).tag = "point" := by
  unfold pointChildOf
  split <;> rfl

/-! ### Concrete fixtures for witnesses and counterexamples -/

/-- A paper whose conversions are the identity on pixel values: any_to_px
and the coordinate transforms change nothing, both scales are 1, and the
external str and int builtins are fixed at size 12. -/
def idPaper : Paper where
  any_to_px := fun v => v
  px_to_text_with_unit := fun _ => "u"
  read_unit := fun _ => 0
  real_to_screen_coords := fun xy => xy
  screen_to_real_coords := fun xy => xy
  real_to_screen_scale := 1
  screen_to_real_scale := 1
  str_of_int := fun _ => "12"
  int_of_str := fun _ => some 12
  standard_font_size := 12
  standard_font_family := "helvetica"
  standard_line_color := "#000"
  standard_area_color := "#ffffff"

/-- An undrawn textatom at the origin with all style values standard. -/
def atomA : Textatom where
  x := 0
  y := 0
  z := 0
  name := "C"
  id := "a1"
  pos := some "center-first"
  text := ""
  font_size := 12
  font_family := "helvetica"
  line_color := "#000"
  area_color := "#ffffff"
  font := ⟨"helvetica", 12⟩
  item := none
  selector := none
  selected := 0
  focus_item := none
  ftext := none
  dirty := false

/-- A drawn textatom: canvas item, selector and ftext handles all present,
no focus rectangle. -/
def atomDrawn : Textatom where
  x := 10
  y := 20
  z := 0
  name := "OH"
  id := "a2"
  pos := some "center-first"
  text := "OH"
  font_size := 12
  font_family := "helvetica"
  line_color := "#000"
  area_color := "#ffffff"
  font := ⟨"helvetica", 12⟩
  item := some 2
  selector := some 1
  selected := 1
  focus_item := none
  ftext := some 3
  dirty := false

/-- An undrawn textatom whose selection flag is raised while no selector
exists: select (lines 372-374) sets the flag unconditionally, whether or
not a selector rectangle is present. -/
def atomStray : Textatom where
  x := 0
  y := 0
  z := 0
  name := "C"
  id := "a3"
  pos := some "center-first"
  text := ""
  font_size := 12
  font_family := "helvetica"
  line_color := "#000"
  area_color := "#ffffff"
  font := ⟨"helvetica", 12⟩
  item := none
  selector := none
  selected := 1
  focus_item := none
  ftext := none
  dirty := false

/-- A flat point child with both coordinates present. -/
def pointEl : Element := Element.mk "point" [("x", "100"), ("y", "100")] [] ""

/-- A flat ftext child holding the markup text A. -/
def ftextEl : Element := Element.mk "ftext" [] [] "A"

/-- A well-formed text package whose pos attribute is an arbitrary string
outside the two centering modes. -/
def pkgPos : Element :=
  Element.mk "text" [("id", "t1"), ("pos", "nonsense")] [pointEl, ftextEl] ""

/-- A package with no children at all: no point and no ftext element. -/
def pkgEmpty : Element := Element.mk "text" [] [] ""

/-- A package with a point child but no ftext child. -/
def pkgPointOnly : Element := Element.mk "text" [] [pointEl] ""

/-! ### Branch lemmas on read_package -/

theorem read_point_part_pos (p : Paper) (position : Element) (a : Textatom) :
    (read_point_part p position a).pos = a.pos := by
  simp only [read_point_part, set_x, set_y]
  rcases hz : (p.read_xml_point position).2.2 with _ | zv <;> simp [hz, set_z]

theorem read_bg_part_pos (pkg : Element) (a : Textatom) :
    (read_bg_part pkg a).pos = a.pos := by
  unfold read_bg_part
  split <;> rfl

theorem read_font_part_pos (p : Paper) (pkg : Element) (a b : Textatom)
    (h : read_font_part p pkg a = Except.ok b) : b.pos = a.pos := by
  unfold read_font_part at h
  rcases hfn : pkg.getElementsByTagName "font" with _ | ⟨fnt, fr⟩
  · rw [hfn] at h
    cases h
    rfl
  · rw [hfn] at h
    dsimp only at h
    rcases hint : p.int_of_str (fnt.getAttribute "size") with _ | n
    · rw [hint] at h
      cases h
    · rw [hint] at h
      dsimp only at h
      split at h <;> (cases h; rfl)

theorem read_font_part_no_string (p : Paper) (pkg : Element) (a : Textatom) (s : String) :
    read_font_part p pkg a ≠ Except.error (PyError.stringRaise s) := by
  unfold read_font_part
  rcases hfn : pkg.getElementsByTagName "font" with _ | ⟨fnt, fr⟩
  · simp
  · dsimp only
    rcases hint : p.int_of_str (fnt.getAttribute "size") with _ | n
    · simp
    · simp

theorem map_bg_no_string (pkg : Element) (r : Except PyError Textatom) (s : String)
    (h : ∀ u, r ≠ Except.error (PyError.stringRaise u)) :
    r.map (read_bg_part pkg) ≠ Except.error (PyError.stringRaise s) := by
  rcases r with e | b
  · simp only [Except.map]
    exact h s
  · simp [Except.map]

/-- On a package with a point, an ftext and no font element, read_package
succeeds and the result is the background part applied after the name and
point parts. -/
theorem read_package_ok_of (p : Paper) (a0 : Textatom) (pkg position ft : Element)
    (rest fr : List Element)
    (hp : pkg.getElementsByTagName "point" = position :: rest)
    (hf : pkg.getElementsByTagName "ftext" = ft :: fr)
    (hfn : pkg.getElementsByTagName "font" = []) :
    read_package p a0 pkg = Except.ok (read_bg_part pkg (set_name ft.inner
      (read_point_part p position
        (set_pos (some (pkg.getAttribute "pos")) { a0 with id := pkg.getAttribute "id" })))) := by
  simp only [read_package, hp, hf, read_font_part, hfn, Except.map]

/-! ### Claim C4: the two centering modes -/

/-- C4 counterexample: read_package copies the document pos attribute in
verbatim, so it establishes a pos value outside the two enumerated
centering modes whenever the document carries one. -/
theorem read_package_pos_verbatim :
    (read_package idPaper (initial_atom idPaper) pkgPos).map (fun b => b.pos)
      = Except.ok (some "nonsense")
  ∧ ("nonsense" : String) ≠ "center-first"
  ∧ ("nonsense" : String) ≠ "center-last" := by
  refine ⟨?_, by decide, by decide⟩
  have hp : pkgPos.getElementsByTagName "point" = [pointEl] := by
    simp [Element.getElementsByTagName, pkgPos, pointEl, ftextEl, elemsByTag,
      Element.children, Element.tag]
  have hf : pkgPos.getElementsByTagName "ftext" = [ftextEl] := by
    simp [Element.getElementsByTagName, pkgPos, pointEl, ftextEl, elemsByTag,
      Element.children, Element.tag]
  have hfn : pkgPos.getElementsByTagName "font" = [] := by
    simp [Element.getElementsByTagName, pkgPos, pointEl, ftextEl, elemsByTag,
      Element.children, Element.tag]
  rw [read_package_ok_of idPaper (initial_atom idPaper) pkgPos pointEl ftextEl [] [] hp hf hfn]
  simp only [Except.map, read_bg_part_pos, set_name, read_point_part_pos, set_pos]
  simp [Element.getAttribute, pkgPos, Element.attrs, List.lookup]

/-- C4 as amended: decide_pos assigns one of the two values center-first
and center-last, and toggle_center stays within that set, swapping on mode
0 (center-last goes to center-first, anything else to center-last),
forcing center-first on mode -1 and center-last on any other mode; but
read_package is an exception the claim overlooks: it copies the pos
attribute of the document verbatim, which may establish a value outside
the two-mode set. -/
theorem pos_enumerated (a : Textatom) (nxs : List ℚ) (mode : Int) :
    ((decide_pos nxs a).pos = some "center-first"
      ∨ (decide_pos nxs a).pos = some "center-last")
  ∧ ((toggle_center mode a).pos = some "center-first"
      ∨ (toggle_center mode a).pos = some "center-last")
  ∧ (toggle_center 0 a).pos
      = (if a.pos = some "center-last" then some "center-first" else some "center-last")
  ∧ (toggle_center (-1) a).pos = some "center-first"
  ∧ (mode ≠ 0 → mode ≠ -1 → (toggle_center mode a).pos = some "center-last") := by
  refine ⟨?_, ?_, ?_, ?_, ?_⟩
  · simp only [decide_pos]
    split <;> simp [set_pos]
  · unfold toggle_center
    split_ifs <;> simp [set_pos]
  · unfold toggle_center
    split_ifs <;> simp_all [set_pos]
  · norm_num [toggle_center, set_pos]
  · intro h0 h1
    simp [toggle_center, h0, h1, set_pos]

/-! ### Claim C3: the ad hoc signal on a missing ftext child -/

/-- C3 counterexample: a document element lacking an ftext child AND
lacking a point child does not reach the ad hoc raised string; indexing
the empty point list raises the structured IndexError first, so the claim
quantified over every element lacking ftext fails. -/
theorem read_package_missing_point_index_error :
    read_package idPaper (initial_atom idPaper) pkgEmpty
      = Except.error PyError.indexError
  ∧ (∀ s, PyError.indexError ≠ PyError.stringRaise s) := by
  constructor
  · simp [read_package, Element.getElementsByTagName, pkgEmpty, elemsByTag,
      Element.children]
  · intro s h
    cases h

/-- C3 as amended: for every document element that contains a point
element but no ftext element, read_package raises the bare string; when an
ftext element is present, no raised-string signal can arise at all from
read_package (elements lacking a point child instead fail earlier with the
IndexError of indexing an empty list). -/
theorem read_package_ftext_check (p : Paper) (a : Textatom) (pkg : Element) :
    (pkg.getElementsByTagName "point" ≠ [] → pkg.getElementsByTagName "ftext" = [] →
      read_package p a pkg = Except.error (PyError.stringRaise "not text atom"))
  ∧ (pkg.getElementsByTagName "ftext" ≠ [] →
      ∀ s, read_package p a pkg ≠ Except.error (PyError.stringRaise s)) := by
  constructor
  · intro hpt hft
    rcases hp : pkg.getElementsByTagName "point" with _ | ⟨pos0, rest⟩
    · exact absurd hp hpt
    · simp [read_package, hp, hft]
  · intro hft s
    rcases hp : pkg.getElementsByTagName "point" with _ | ⟨pos0, rest⟩
    · simp [read_package, hp]
    · rcases hf : pkg.getElementsByTagName "ftext" with _ | ⟨ft0, fr⟩
      · exact absurd hf hft
      · simp only [read_package, hp, hf]
        exact map_bg_no_string pkg _ s (read_font_part_no_string p pkg _)

/-- Witness for C3 as amended, on a package holding a point child and no
ftext child: read_package produces exactly the raised string. -/
theorem read_package_ftext_check_witness :
    pkgPointOnly.getElementsByTagName "point" ≠ []
  ∧ pkgPointOnly.getElementsByTagName "ftext" = []
  ∧ read_package idPaper (initial_atom idPaper) pkgPointOnly
      = Except.error (PyError.stringRaise "not text atom") := by
  have hpt : pkgPointOnly.getElementsByTagName "point" ≠ [] := by
    simp [Element.getElementsByTagName, pkgPointOnly, pointEl, elemsByTag,
      Element.children]
  have hft : pkgPointOnly.getElementsByTagName "ftext" = [] := by
    simp [Element.getElementsByTagName, pkgPointOnly, pointEl, elemsByTag,
      Element.children]
  exact ⟨hpt, hft,
    (read_package_ftext_check idPaper (initial_atom idPaper) pkgPointOnly).1 hpt hft⟩

/-! ### Claim C5: the utf-8 fallback in the name setter -/

/-- C5: when the implicit ascii decode of the assigned byte string fails
with a unicode decoding error, the name setter decodes the input as utf-8
instead and stores the utf-8 encoding of the decoded text. -/
theorem name_setter_utf8_fallback (bs t : List Nat)
    (hascii : PyStr.asciiDecode bs = none)
    (hutf8 : PyStr.utf8Decode bs = some t) :
    PyStr.storedName bs = some (PyStr.utf8Encode t) := by
  simp [PyStr.storedName, hascii, hutf8]

/-- Witness for C5 on the two-byte sequence C3 A9 (the code point E9): the
ascii decode fails, the utf-8 decode succeeds, and the stored name is the
utf-8 re-encoding of the decoded text. -/
theorem name_setter_utf8_fallback_witness :
    PyStr.asciiDecode [0xC3, 0xA9] = none
  ∧ PyStr.utf8Decode [0xC3, 0xA9] = some [0xE9]
  ∧ PyStr.storedName [0xC3, 0xA9] = some (PyStr.utf8Encode [0xE9]) :=
  ⟨by decide, by decide,
    name_setter_utf8_fallback [0xC3, 0xA9] [0xE9] (by decide) (by decide)⟩

/-! ### Claim C6: regeneration of the cached font -/

/-- C6 counterexample: assigning a new font size through the font_size
property setter changes font_size but leaves the cached font object
untouched, so self.font does not reflect the current size after that
operation. -/
theorem font_size_setter_stale_font :
    (set_font_size 20 atomA).font_size = 20
  ∧ (set_font_size 20 atomA).font = Font.mk "helvetica" 12
  ∧ Font.mk "helvetica" 12 ≠ Font.mk "helvetica" 20 := by
  refine ⟨rfl, rfl, ?_⟩
  decide

/-- C6 as amended: update_font rebuilds the cached font from the current
family and size, and scale_font (which changes font_size) calls it, so the
font matches the new size afterwards; the bare font_size property setter,
however, only stores the size and marks the atom dirty without touching
the cached font, which is refreshed at the next update_font call (draw,
redraw or scale_font). -/
theorem font_regenerated (a : Textatom) (r : ℚ) (v : Int) :
    (update_font a).font = Font.mk a.font_family a.font_size
  ∧ (scale_font r a).font = Font.mk (scale_font r a).font_family (scale_font r a).font_size
  ∧ (set_font_size v a).font_size = v
  ∧ (set_font_size v a).font = a.font := by
  refine ⟨rfl, ?_, rfl, rfl⟩
  simp [scale_font, update_font, set_font_size]

/-! ### Claim C7: charge and valency are trivial constants -/

/-- C7: the charge property always reads 0 and the valency property always
reads 1, the two setters change nothing, so both attributes are fixed
constants over the lifetime of a textatom. -/
theorem charge_valency_trivial (a : Textatom) (v w : Int) :
    charge (set_charge v a) = 0
  ∧ valency (set_valency w a) = 1
  ∧ set_charge v a = a
  ∧ set_valency w a = a
  ∧ charge a = 0
  ∧ valency a = 1 := by
  exact ⟨rfl, rfl, rfl, rfl, rfl, rfl⟩

/-! ### Claim C8: the PDF plugin contract -/

/-- C8: the plugin module declares the name PDF and exactly the extension
.pdf, and its exporter builds a PDF canvas with the page size handed to
init_canvas. -/
theorem pdf_plugin_contract (ps : Option (ℚ × ℚ)) :
    PdfPlugin.plugin_name = "PDF"
  ∧ PdfPlugin.plugin_extensions = [".pdf"]
  ∧ (PdfPlugin.init_canvas ps).pagesize = ps := by
  exact ⟨rfl, rfl, rfl⟩

/-! ### Claim C9: move and move_to on an identity unit conversion -/

/-- C9: when paper.any_to_px is the identity on pixel values, move adds
exactly the deltas to the coordinates, and move_to therefore lands exactly
on the requested point as reported by get_xy. -/
theorem move_move_to_exact (p : Paper) (a : Textatom) (dx dy tx ty : ℚ)
    (h : ∀ v, p.any_to_px v = v) :
    (move p dx dy a).x = a.x + dx
  ∧ (move p dx dy a).y = a.y + dy
  ∧ get_xy (move_to p tx ty a) = (tx, ty) := by
  refine ⟨?_, ?_, ?_⟩ <;>
    simp [move, move_to, set_x, set_y, get_xy, h]

/-- Witness for C9 on the identity paper: moving the origin atom by (3, 4)
adds exactly the deltas, and move_to (5, 6) lands on (5, 6). -/
theorem move_move_to_exact_witness :
    (∀ v, idPaper.any_to_px v = v)
  ∧ ((move idPaper 3 4 atomA).x = atomA.x + 3
    ∧ (move idPaper 3 4 atomA).y = atomA.y + 4
    ∧ get_xy (move_to idPaper 5 6 atomA) = (5, 6)) :=
  ⟨fun _ => rfl, move_move_to_exact idPaper atomA 3 4 5 6 (fun _ => rfl)⟩

/-! ### Claim C10: delete and its repetition -/

/-- C10 counterexample, in two parts against the claim as stated. First,
on a drawn atom whose ftext helper exists, the first delete clears item
and selector but not the ftext reference, so a second delete still
performs a canvas-side operation, calling delete on the ftext object
again. Second, on an atom whose selection flag is raised while no
selector exists (select, lines 372-374, raises the flag without requiring
a selector), delete leaves the flag at 1, because the flag is cleared
only inside the selector branch (lines 434-438): the selection flag does
not read 0 after one call. -/
theorem delete_second_call_effects :
    ((delete (delete atomDrawn).1).2 = [Effect.ftext_delete 3]
      ∧ (delete (delete atomDrawn).1).2 ≠ [])
  ∧ ((delete atomStray).1.selected = 1 ∧ (1 : Nat) ≠ 0) := by
  refine ⟨⟨rfl, ?_⟩, rfl, ?_⟩ <;> decide

/-- C10 as amended: delete returns the atom; after one call the item and
selector are None and drawn reads 0, and the selection flag is 0 provided
the atom had a selector or was not marked selected (the flag is cleared
only inside the selector branch, lines 434-438, so a stray flag without a
selector survives); a second call leaves the state identical, and it
performs no canvas operations only when the focus_item and ftext
references are clear, since delete resets neither, so a lingering focus
rectangle or ftext helper is touched again. -/
theorem delete_idempotent_state (a : Textatom)
    (hsel : a.selector.isSome ∨ a.selected = 0) :
    (delete a).1.item = none
  ∧ (delete a).1.selector = none
  ∧ (delete a).1.selected = 0
  ∧ drawn (delete a).1 = 0
  ∧ (delete (delete a).1).1 = (delete a).1
  ∧ ((delete a).1.focus_item = none → (delete a).1.ftext = none →
      (delete (delete a).1).2 = []) := by
  rcases hs : a.selector with _ | s <;>
    rcases hi : a.item with _ | i <;>
      rcases hf : a.ftext with _ | f <;>
        simp_all [delete, drawn]

/-- Witness for C10 on a drawn atom with no lingering focus or ftext: one
delete clears everything and a second call is a complete no-op. -/
theorem delete_idempotent_state_witness :
    ((atomA.selector.isSome ∨ atomA.selected = 0)
  ∧ ((delete atomA).1.item = none
    ∧ (delete atomA).1.selector = none
    ∧ (delete atomA).1.selected = 0
    ∧ drawn (delete atomA).1 = 0
    ∧ (delete (delete atomA).1).1 = (delete atomA).1
    ∧ ((delete atomA).1.focus_item = none → (delete atomA).1.ftext = none →
        (delete (delete atomA).1).2 = []))) :=
  ⟨Or.inr rfl, delete_idempotent_state atomA (Or.inr rfl)⟩

/-! ### Structure of the element produced by get_package -/

theorem elemsByTag_pair (tag : String) (e1 e2 : Element)
    (h1 : e1.children = []) (h2 : e2.children = []) :
    elemsByTag tag [e1, e2]
      = (if e1.tag = tag then [e1] else []) ++ (if e2.tag = tag then [e2] else []) := by
  have hsplit : [e1, e2] = [e1] ++ [e2] := rfl
  rw [hsplit, elemsByTag_append, elemsByTag_flat tag e1 h1, elemsByTag_flat tag e2 h2]

theorem get_package_children (p : Paper) (a : Textatom) :
    (get_package p a).children
      = (if a.font_size ≠ p.standard_font_size ∨ a.font_family ≠ p.standard_font_family
          ∨ a.line_color ≠ p.standard_line_color then [fontChildOf p a] else [])
        ++ [ftextChildOf a, pointChildOf p a] := rfl

theorem get_package_attrs (p : Paper) (a : Textatom) :
    (get_package p a).attrs
      = [("id", a.id)]
        ++ (if a.area_color ≠ p.standard_area_color
            then [("background-color", a.area_color)] else []) := rfl

theorem get_package_byTag (p : Paper) (a : Textatom) (tag : String) :
    (get_package p a).getElementsByTagName tag
      = (if a.font_size ≠ p.standard_font_size ∨ a.font_family ≠ p.standard_font_family
          ∨ a.line_color ≠ p.standard_line_color
          then (if "font" = tag then [fontChildOf p a] else []) else [])
        ++ (if "ftext" = tag then [ftextChildOf a] else [])
        ++ (if "point" = tag then [pointChildOf p a] else []) := by
  unfold Element.getElementsByTagName
  rw [get_package_children, elemsByTag_append,
    elemsByTag_pair tag (ftextChildOf a) (pointChildOf p a)
      (ftextChildOf_children a) (pointChildOf_children p a),
    ftextChildOf_tag, pointChildOf_tag]
  split
  · rw [elemsByTag_flat tag (fontChildOf p a) (fontChildOf_children p a), fontChildOf_tag,
      List.append_assoc]
  · rw [elemsByTag_nil, List.append_assoc]

theorem get_package_byTag_point (p : Paper) (a : Textatom) :
    (get_package p a).getElementsByTagName "point" = [pointChildOf p a] := by
  rw [get_package_byTag]
  split <;> simp

theorem get_package_byTag_ftext (p : Paper) (a : Textatom) :
    (get_package p a).getElementsByTagName "ftext" = [ftextChildOf a] := by
  rw [get_package_byTag]
  split <;> simp

theorem get_package_byTag_font (p : Paper) (a : Textatom) :
    (get_package p a).getElementsByTagName "font"
      = (if a.font_size ≠ p.standard_font_size ∨ a.font_family ≠ p.standard_font_family
          ∨ a.line_color ≠ p.standard_line_color then [fontChildOf p a] else []) := by
  rw [get_package_byTag]
  split <;> simp

/-! ### Claim C2: the shape of the produced CDML element -/

/-- C2 counterexample: the element produced by get_package carries only the
id attribute (and, when the area color differs from the standard, a
background-color attribute); it never carries a pos attribute, although
the claim says it does (read_package expects one, so a serialized pos
never survives a round trip). -/
theorem get_package_no_pos_attr :
    (get_package idPaper atomA).attrs = [("id", "a1")]
  ∧ (get_package idPaper atomA).attrs.lookup "pos" = none := by
  have h : (get_package idPaper atomA).attrs = [("id", "a1")] := by
    rw [get_package_attrs]
    norm_num [idPaper, atomA]
  refine ⟨h, ?_⟩
  rw [h]
  rfl

/-- C2 as amended: the element is tagged text and carries the id attribute
always and background-color exactly when the area color differs from the
paper standard, but no pos attribute; its children are a font element
(with size and family attributes, and color exactly when the line color
differs from the standard) present exactly when size, family or line color
differ from the standard, an ftext element holding the inline markup text,
and a point element with x and y attributes and z exactly when z is
nonzero. -/
theorem get_package_shape (p : Paper) (a : Textatom) :
    (get_package p a).tag = "text"
  ∧ (get_package p a).attrs.lookup "id" = some a.id
  ∧ (get_package p a).attrs.lookup "pos" = none
  ∧ (get_package p a).attrs.lookup "background-color"
      = (if a.area_color ≠ p.standard_area_color then some a.area_color else none)
  ∧ (get_package p a).getElementsByTagName "font"
      = (if a.font_size ≠ p.standard_font_size ∨ a.font_family ≠ p.standard_font_family
          ∨ a.line_color ≠ p.standard_line_color then [fontChildOf p a] else [])
  ∧ (fontChildOf p a).attrs.lookup "size" = some (p.str_of_int a.font_size)
  ∧ (fontChildOf p a).attrs.lookup "family" = some a.font_family
  ∧ (fontChildOf p a).attrs.lookup "color"
      = (if a.line_color ≠ p.standard_line_color then some a.line_color else none)
  ∧ (get_package p a).getElementsByTagName "ftext" = [ftextChildOf a]
  ∧ (ftextChildOf a).inner = a.name
  ∧ (get_package p a).getElementsByTagName "point" = [pointChildOf p a]
  ∧ (pointChildOf p a).attrs.lookup "x"
      = some (p.px_to_text_with_unit (p.screen_to_real_coords (a.x, a.y)).1)
  ∧ (pointChildOf p a).attrs.lookup "y"
      = some (p.px_to_text_with_unit (p.screen_to_real_coords (a.x, a.y)).2)
  ∧ (pointChildOf p a).attrs.lookup "z"
      = (if a.z ≠ 0 then some (p.px_to_text_with_unit (a.z * p.screen_to_real_scale))
          else none) := by
  refine ⟨rfl, ?_, ?_, ?_, get_package_byTag_font p a, ?_, ?_, ?_,
    get_package_byTag_ftext p a, rfl, get_package_byTag_point p a, ?_, ?_, ?_⟩
  · rw [get_package_attrs]
    simp [List.lookup]
  · rw [get_package_attrs]
    split <;> simp [List.lookup]
  · rw [get_package_attrs]
    split <;> simp [List.lookup]
  · unfold fontChildOf
    simp [Element.attrs, List.lookup]
  · unfold fontChildOf
    split <;> simp [Element.attrs, List.lookup]
  · unfold fontChildOf
    split <;> simp [Element.attrs, List.lookup]
  · unfold pointChildOf
    split <;> simp [Element.attrs, List.lookup, get_xyz_real]
  · unfold pointChildOf
    split <;> simp [Element.attrs, List.lookup, get_xyz_real]
  · unfold pointChildOf
    split <;> simp_all [Element.attrs, List.lookup, get_xyz_real]

/-! ### Claim C1: the serialization round trip -/

theorem pointChildOf_attr_x (p : Paper) (a : Textatom) :
    (pointChildOf p a).getAttribute "x"
      = p.px_to_text_with_unit (p.screen_to_real_coords (a.x, a.y)).1 := by
  unfold pointChildOf
  split <;> simp [Element.getAttribute, Element.attrs, List.lookup, get_xyz_real]

theorem pointChildOf_attr_y (p : Paper) (a : Textatom) :
    (pointChildOf p a).getAttribute "y"
      = p.px_to_text_with_unit (p.screen_to_real_coords (a.x, a.y)).2 := by
  unfold pointChildOf
  split <;> simp [Element.getAttribute, Element.attrs, List.lookup, get_xyz_real]

theorem pointChildOf_lookup_z (p : Paper) (a : Textatom) :
    (pointChildOf p a).attrs.lookup "z"
      = (if a.z ≠ 0 then some (p.px_to_text_with_unit (a.z * p.screen_to_real_scale))
          else none) := by
  unfold pointChildOf
  split <;> simp_all [Element.attrs, List.lookup, get_xyz_real]

/-- Reading back the point element that get_package wrote restores the
coordinates, provided the unit rendering and parsing invert each other at
the written values, the coordinate transforms invert each other at this
point, any_to_px is the identity at the restored values, and the two
scales cancel on z. The z field of the state being updated must be 0, as
in a freshly constructed atom, since a point element without a z attribute
leaves z untouched. -/
theorem read_point_part_fields (p : Paper) (a : Textatom) (X : Textatom)
    (hX : X.z = 0)
    (hrx : p.read_unit (p.px_to_text_with_unit (p.screen_to_real_coords (a.x, a.y)).1)
      = (p.screen_to_real_coords (a.x, a.y)).1)
    (hry : p.read_unit (p.px_to_text_with_unit (p.screen_to_real_coords (a.x, a.y)).2)
      = (p.screen_to_real_coords (a.x, a.y)).2)
    (hxy : p.real_to_screen_coords (p.screen_to_real_coords (a.x, a.y)) = (a.x, a.y))
    (hax : p.any_to_px a.x = a.x)
    (hay : p.any_to_px a.y = a.y)
    (hz : p.read_unit (p.px_to_text_with_unit (a.z * p.screen_to_real_scale))
      * p.real_to_screen_scale = a.z) :
    (read_point_part p (pointChildOf p a) X).x = a.x
  ∧ (read_point_part p (pointChildOf p a) X).y = a.y
  ∧ (read_point_part p (pointChildOf p a) X).z = a.z := by
  by_cases hz0 : a.z = 0
  · refine ⟨?_, ?_, ?_⟩ <;>
      simp [read_point_part, Paper.read_xml_point, pointChildOf_attr_x, pointChildOf_attr_y,
        pointChildOf_lookup_z, hz0, hrx, hry, set_x, set_y, set_z, Prod.mk.eta, hxy,
        hax, hay, hX]
  · refine ⟨?_, ?_, ?_⟩ <;>
      simp [read_point_part, Paper.read_xml_point, pointChildOf_attr_x, pointChildOf_attr_y,
        pointChildOf_lookup_z, hz0, hrx, hry, set_x, set_y, set_z, Prod.mk.eta, hxy,
        hax, hay, hz]

theorem fontChildOf_attr_size (p : Paper) (a : Textatom) :
    (fontChildOf p a).getAttribute "size" = p.str_of_int a.font_size := by
  unfold fontChildOf
  simp [Element.getAttribute, Element.attrs, List.lookup]

/-- The observation the round trip preserves: position and label. -/
def coords_name (b : Textatom) : ℚ × ℚ × ℚ × String :=
  (b.x, b.y, b.z, b.name)

theorem coords_name_update_font (c : Textatom) :
    coords_name (update_font c) = coords_name c := rfl

theorem coords_name_read_bg_part (pkg : Element) (c : Textatom) :
    coords_name (read_bg_part pkg c) = coords_name c := by
  unfold read_bg_part
  split <;> rfl

theorem map_coords_name_of (r : Except PyError Textatom) (g : Textatom → Textatom)
    (hg : ∀ c, coords_name (g c) = coords_name c) :
    (r.map g).map coords_name = r.map coords_name := by
  rcases r with e | c <;> simp [Except.map, hg]

/-- The font part of read_package succeeds on the element get_package
wrote, provided int() inverts str() at the written font size, and it
leaves the coordinates and the name unchanged. -/
theorem read_font_part_roundtrip (p : Paper) (a : Textatom) (Y : Textatom)
    (hfs : p.int_of_str (p.str_of_int a.font_size) = some a.font_size) :
    (read_font_part p (get_package p a) Y).map coords_name
      = Except.ok (coords_name Y) := by
  by_cases hc : (a.font_size ≠ p.standard_font_size ∨ a.font_family ≠ p.standard_font_family
      ∨ a.line_color ≠ p.standard_line_color)
  · have hfn : (get_package p a).getElementsByTagName "font" = [fontChildOf p a] := by
      rw [get_package_byTag_font, if_pos hc]
    unfold read_font_part
    rw [hfn]
    dsimp only
    rw [fontChildOf_attr_size, hfs]
    dsimp only
    split <;> simp [Except.map, coords_name, set_font_size]
  · have hfn : (get_package p a).getElementsByTagName "font" = [] := by
      rw [get_package_byTag_font, if_neg hc]
    unfold read_font_part
    rw [hfn]
    simp [Except.map]

/-- C1: serializing a textatom with get_package and constructing a new
textatom from the element via read_package (the package constructor path
of init) restores the position (x, y, z) and the label (name), under the
stated consistency of the external paper conversions and of the Python int
with str at the written values: unit parsing inverts unit rendering,
real_to_screen_coords inverts screen_to_real_coords at this point,
any_to_px is the identity at the restored coordinates, the two scales
cancel on z, and int() recovers the written font size. -/
theorem textatom_package_roundtrip (p : Paper) (a : Textatom)
    (hrx : p.read_unit (p.px_to_text_with_unit (p.screen_to_real_coords (a.x, a.y)).1)
      = (p.screen_to_real_coords (a.x, a.y)).1)
    (hry : p.read_unit (p.px_to_text_with_unit (p.screen_to_real_coords (a.x, a.y)).2)
      = (p.screen_to_real_coords (a.x, a.y)).2)
    (hxy : p.real_to_screen_coords (p.screen_to_real_coords (a.x, a.y)) = (a.x, a.y))
    (hax : p.any_to_px a.x = a.x)
    (hay : p.any_to_px a.y = a.y)
    (hz : p.read_unit (p.px_to_text_with_unit (a.z * p.screen_to_real_scale))
      * p.real_to_screen_scale = a.z)
    (hfs : p.int_of_str (p.str_of_int a.font_size) = some a.font_size) :
    (init_from_package p (get_package p a)).map coords_name
      = Except.ok (a.x, a.y, a.z, a.name) := by
  unfold init_from_package
  simp only [read_package, get_package_byTag_point, get_package_byTag_ftext]
  rw [map_coords_name_of _ update_font coords_name_update_font,
    map_coords_name_of _ (read_bg_part (get_package p a))
      (coords_name_read_bg_part (get_package p a)),
    read_font_part_roundtrip p a _ hfs]
  refine congrArg Except.ok ?_
  have hpt := read_point_part_fields p a
    (set_pos (some ((get_package p a).getAttribute "pos"))
      { initial_atom p with id := (get_package p a).getAttribute "id" })
    rfl hrx hry hxy hax hay hz
  simp [coords_name, set_name, hpt.1, hpt.2.1, hpt.2.2, ftextChildOf, Element.inner]

/-- Witness for C1 on the identity paper and an atom at the origin with
standard style values: all the consistency hypotheses hold and the round
trip restores position and label. -/
theorem textatom_package_roundtrip_witness :
    (idPaper.read_unit (idPaper.px_to_text_with_unit
        (idPaper.screen_to_real_coords (atomA.x, atomA.y)).1)
      = (idPaper.screen_to_real_coords (atomA.x, atomA.y)).1)
  ∧ (idPaper.read_unit (idPaper.px_to_text_with_unit
        (idPaper.screen_to_real_coords (atomA.x, atomA.y)).2)
      = (idPaper.screen_to_real_coords (atomA.x, atomA.y)).2)
  ∧ idPaper.real_to_screen_coords (idPaper.screen_to_real_coords (atomA.x, atomA.y))
      = (atomA.x, atomA.y)
  ∧ idPaper.any_to_px atomA.x = atomA.x
  ∧ idPaper.any_to_px atomA.y = atomA.y
  ∧ idPaper.read_unit (idPaper.px_to_text_with_unit
        (atomA.z * idPaper.screen_to_real_scale)) * idPaper.real_to_screen_scale = atomA.z
  ∧ idPaper.int_of_str (idPaper.str_of_int atomA.font_size) = some atomA.font_size
  ∧ (init_from_package idPaper (get_package idPaper atomA)).map coords_name
      = Except.ok (atomA.x, atomA.y, atomA.z, atomA.name) :=
  ⟨rfl, rfl, rfl, rfl, rfl, by norm_num [idPaper, atomA], rfl,
    textatom_package_roundtrip idPaper atomA rfl rfl rfl rfl rfl
      (by norm_num [idPaper, atomA]) rfl⟩

end BKChem
